import Mathlib

/-!
Shallow embedding of the performance-monitoring core of the repository:
`src/utils/FlatListPerformanceMonitor.ts` and `src/utils/PerformanceMonitor.ts`.

JavaScript numbers are modelled as rationals (`ℚ`); integer counters that are
only ever incremented are modelled as `ℕ`.  Each public call of the monitor is
modelled as a pure state transformer taking the current clock reading
(`performance.now()` / `Date.now()`) and, where the source reads host memory
information or `Math.random()`, an explicit environment record, so that the
nondeterminism of the host is an input of the model.  Logging (`console.log`)
has no observable effect on monitor state and is omitted.
-/

namespace FlatListMonitor

/-- `metrics.scrollPerformance` sub-record of `PerformanceMetrics`
(`FlatListPerformanceMonitor.ts`, lines 4-8). -/
structure ScrollPerformance where
  averageFPS : ℚ
  droppedFrames : ℕ
  scrollEvents : ℕ
  deriving DecidableEq

/-- `metrics.memoryUsage` sub-record (`FlatListPerformanceMonitor.ts`, lines 9-13). -/
structure MemoryUsage where
  jsHeapSizeUsed : ℚ
  jsHeapSizeTotal : ℚ
  jsHeapSizeLimit : ℚ
  deriving DecidableEq

/-- `metrics.listMetrics` sub-record (`FlatListPerformanceMonitor.ts`, lines 14-19). -/
structure ListMetrics where
  totalItems : ℚ
  visibleItems : ℚ
  renderedItems : ℚ
  recycledItems : ℚ
  deriving DecidableEq

/-- The exported `PerformanceMetrics` record (`FlatListPerformanceMonitor.ts`, lines 2-20). -/
structure PerformanceMetrics where
  renderTime : ℚ
  scrollPerformance : ScrollPerformance
  memoryUsage : MemoryUsage
  listMetrics : ListMetrics
  deriving DecidableEq

/-- The private fields of class `FlatListPerformanceMonitor`
(`FlatListPerformanceMonitor.ts`, lines 22-31).  `rafId` is abstracted to a
`Bool` recording whether an animation-frame callback is currently scheduled
(`rafId ≠ null` in the source). -/
structure MonitorState where
  metrics : PerformanceMetrics
  renderStartTime : ℚ
  frameCount : ℕ
  droppedFrames : ℕ
  scrollEventCount : ℕ
  lastFrameTime : ℚ
  isMonitoring : Bool
  rafId : Bool
  deriving DecidableEq

/-- Host environment consulted by `updateMemoryUsage`: whether
`performance.memory` exists, the values it would report, and the two
`Math.random()` outcomes (in `[0,1)`) used by the simulated fallback branch. -/
structure MemEnv where
  avail : Bool
  usedJSHeapSize : ℚ
  totalJSHeapSize : ℚ
  jsHeapSizeLimit : ℚ
  rand1 : ℚ
  rand2 : ℚ
  deriving DecidableEq

/-- The all-zero `PerformanceMetrics` record built in the constructor
(`FlatListPerformanceMonitor.ts`, lines 40-60) and again in `reset`. -/
def zeroMetrics : PerformanceMetrics :=
  { renderTime := 0
    scrollPerformance := { averageFPS := 0, droppedFrames := 0, scrollEvents := 0 }
    memoryUsage := { jsHeapSizeUsed := 0, jsHeapSizeTotal := 0, jsHeapSizeLimit := 0 }
    listMetrics := { totalItems := 0, visibleItems := 0, renderedItems := 0, recycledItems := 0 } }

/-- Freshly constructed monitor (constructor, lines 40-60, with the field
initializers of lines 25-31). -/
def initState : MonitorState :=
  { metrics := zeroMetrics
    renderStartTime := 0
    frameCount := 0
    droppedFrames := 0
    scrollEventCount := 0
    lastFrameTime := 0
    isMonitoring := false
    rafId := false }

/-- `startMonitoring()` (lines 63-74): no-op when already monitoring, otherwise
resets the counters, stamps `lastFrameTime = performance.now()` and schedules
the frame callback (`startFrameMonitoring`, line 137, sets `rafId`). -/
def startMonitoring (now : ℚ) (st : MonitorState) : MonitorState :=
  if st.isMonitoring then st
  else
    { st with
      isMonitoring := true
      frameCount := 0
      droppedFrames := 0
      scrollEventCount := 0
      lastFrameTime := now
      rafId := true }

/-- One execution of the frame callback `monitorFrame` (lines 122-135):
bails out if monitoring has stopped, otherwise counts the frame, counts a
dropped frame when the inter-frame delta exceeds `16.67 * 2` ms, updates
`lastFrameTime` and reschedules itself. -/
def monitorFrame (currentTime : ℚ) (st : MonitorState) : MonitorState :=
  if st.isMonitoring = false then st
  else
    let deltaTime := currentTime - st.lastFrameTime
    let st1 := { st with frameCount := st.frameCount + 1 }
    let st2 :=
      if deltaTime > (1667/100 : ℚ) * 2 then
        { st1 with droppedFrames := st1.droppedFrames + 1 }
      else st1
    { st2 with lastFrameTime := currentTime, rafId := true }

/-- `updateMemoryUsage()` (lines 152-169): copies `performance.memory` when the
host exposes it (the `|| 0` defaults are the identity on rational values),
otherwise synthesizes placeholder values from `Math.random()`. -/
def updateMemoryUsage (env : MemEnv) (st : MonitorState) : MonitorState :=
  if env.avail then
    { st with metrics.memoryUsage :=
        { jsHeapSizeUsed := env.usedJSHeapSize
          jsHeapSizeTotal := env.totalJSHeapSize
          jsHeapSizeLimit := env.jsHeapSizeLimit } }
  else
    { st with metrics.memoryUsage :=
        { jsHeapSizeUsed := ((⌊env.rand1 * 50000000⌋ : ℤ) : ℚ) + 10000000
          jsHeapSizeTotal := ((⌊env.rand2 * 20000000⌋ : ℤ) : ℚ) + 60000000
          jsHeapSizeLimit := 100000000 } }

/-- `updateMetrics()` (lines 141-149): recomputes `averageFPS` from
`frameCount`, `lastFrameTime` and the current time (the duration is the
source's estimate `(now - (lastFrameTime - frameCount * 16.67)) / 1000`),
copies the dropped-frame counter into the metrics record, and refreshes the
memory figures. -/
def updateMetricsFn (now : ℚ) (env : MemEnv) (st : MonitorState) : MonitorState :=
  let monitoringDuration := (now - (st.lastFrameTime - (st.frameCount : ℚ) * (1667/100))) / 1000
  let st1 :=
    { st with
      metrics.scrollPerformance :=
        { averageFPS := (st.frameCount : ℚ) / monitoringDuration
          droppedFrames := st.droppedFrames
          scrollEvents := st.metrics.scrollPerformance.scrollEvents } }
  updateMemoryUsage env st1

/-- `stopMonitoring()` (lines 77-89): no-op when not monitoring; otherwise
clears the monitoring flag, cancels the scheduled callback, and runs
`updateMetrics` — once directly and once more through
`logPerformanceReport`'s call to `getMetrics` (line 188). -/
def stopMonitoring (now : ℚ) (env : MemEnv) (st : MonitorState) : MonitorState :=
  if st.isMonitoring = false then st
  else
    let st1 := { st with isMonitoring := false, rafId := false }
    let st2 := updateMetricsFn now env st1
    updateMetricsFn now env st2

/-- `startRenderTiming()` (lines 92-94). -/
def startRenderTiming (now : ℚ) (st : MonitorState) : MonitorState :=
  { st with renderStartTime := now }

/-- `endRenderTiming()` (lines 97-102): only records when a render timing is
pending (`renderStartTime > 0`); the default/cleared value is `0`. -/
def endRenderTiming (now : ℚ) (st : MonitorState) : MonitorState :=
  if st.renderStartTime > 0 then
    { st with
      metrics.renderTime := now - st.renderStartTime
      renderStartTime := 0 }
  else st

/-- `recordScrollEvent()` (lines 105-108). -/
def recordScrollEvent (st : MonitorState) : MonitorState :=
  let c := st.scrollEventCount + 1
  { st with scrollEventCount := c, metrics.scrollPerformance.scrollEvents := c }

/-- `updateListMetrics(totalItems, visibleItems, renderedItems)` (lines 111-118). -/
def updateListMetrics (totalItems visibleItems renderedItems : ℚ)
    (st : MonitorState) : MonitorState :=
  { st with metrics.listMetrics :=
      { totalItems := totalItems
        visibleItems := visibleItems
        renderedItems := renderedItems
        recycledItems := max 0 (renderedItems - visibleItems) } }

/-- `getMetrics()` (lines 172-175): runs `updateMetrics()` and returns a copy
of the (refreshed) metrics record together with the post-call state. -/
def getMetricsCall (now : ℚ) (env : MemEnv) (st : MonitorState) :
    PerformanceMetrics × MonitorState :=
  let st1 := updateMetricsFn now env st
  (st1.metrics, st1)

/-- Advisory message pushed when `averageFPS < 50` (line 209). -/
def lowFPSMsg : String := "🐌 FPS 过低，建议优化渲染性能"

/-- Advisory message pushed when `droppedFrames > 10` (line 213). -/
def droppedFramesMsg : String := "⚠️ 掉帧较多，检查是否有复杂的渲染逻辑"

/-- Advisory message pushed when `renderTime > 16` (line 217). -/
def renderTimeMsg : String := "🎨 渲染时间过长，考虑使用 getItemLayout 优化"

/-- Advisory message pushed when `renderedItems > visibleItems * 3` (line 221). -/
def overRenderMsg : String := "📋 渲染项目过多，调整 initialNumToRender 和 maxToRenderPerBatch"

/-- Advisory message pushed when the memory-usage percentage exceeds 80 (line 226). -/
def highMemoryMsg : String := "💾 内存使用率过高，检查是否有内存泄漏"

/-- Message returned when no threshold fired (line 230). -/
def performingWellMsg : String := "✅ 性能表现良好！"

/-- The threshold checks of `getPerformanceRecommendations()` (lines 204-234)
applied to an already-fetched metrics record: each firing condition appends
its message, and an empty result is replaced by the single
performing-well message. -/
def recommendationsOf (m : PerformanceMetrics) : List String :=
  let recommendations : List String := []
  let recommendations :=
    if m.scrollPerformance.averageFPS < 50 then recommendations ++ [lowFPSMsg]
    else recommendations
  let recommendations :=
    if m.scrollPerformance.droppedFrames > 10 then recommendations ++ [droppedFramesMsg]
    else recommendations
  let recommendations :=
    if m.renderTime > 16 then recommendations ++ [renderTimeMsg]
    else recommendations
  let recommendations :=
    if m.listMetrics.renderedItems > m.listMetrics.visibleItems * 3 then
      recommendations ++ [overRenderMsg]
    else recommendations
  let memoryUsagePercent := m.memoryUsage.jsHeapSizeUsed / m.memoryUsage.jsHeapSizeTotal * 100
  let recommendations :=
    if memoryUsagePercent > 80 then recommendations ++ [highMemoryMsg]
    else recommendations
  if recommendations = [] then [performingWellMsg] else recommendations

/-- `getPerformanceRecommendations()` (lines 204-234): fetches the metrics via
`getMetrics()` (which refreshes them) and maps them through the threshold
table; returns the advisory list together with the post-call state. -/
def getPerformanceRecommendations (now : ℚ) (env : MemEnv) (st : MonitorState) :
    List String × MonitorState :=
  let p := getMetricsCall now env st
  (recommendationsOf p.1, p.2)

/-- The specification's threshold table (spec §4.4), written from the spec's
words: each row pairs the row's condition with its message.  The memory row is
the spec's `memoryUsageUsed / memoryUsageTotal > 0.80`, and the over-render
row is the spec's `renderedItems > 3 × visibleItems`. -/
def thresholdTable (m : PerformanceMetrics) : List (Bool × String) :=
  [ (decide (m.scrollPerformance.averageFPS < 50), lowFPSMsg),
    (decide (m.scrollPerformance.droppedFrames > 10), droppedFramesMsg),
    (decide (m.renderTime > 16), renderTimeMsg),
    (decide (m.listMetrics.renderedItems > 3 * m.listMetrics.visibleItems), overRenderMsg),
    (decide (m.memoryUsage.jsHeapSizeUsed / m.memoryUsage.jsHeapSizeTotal > 80/100),
      highMemoryMsg) ]

/-- The Recommendation Engine as the spec words it (§4.4): exactly the
messages of the rows whose condition holds, in table order, and the single
performing-well message when no row fires. -/
def recommendSpec (m : PerformanceMetrics) : List String :=
  let hits := (thresholdTable m).filterMap (fun p => if p.1 then some p.2 else none)
  if hits = [] then [performingWellMsg] else hits

/-- `reset()` (lines 237-266): stops monitoring, zeroes every private counter
and replaces the metrics record by the all-zero record. -/
def reset (now : ℚ) (env : MemEnv) (st : MonitorState) : MonitorState :=
  let st1 := stopMonitoring now env st
  { st1 with
    frameCount := 0
    droppedFrames := 0
    scrollEventCount := 0
    renderStartTime := 0
    lastFrameTime := 0
    metrics := zeroMetrics }

/-- A host environment without `performance.memory`, whose two `Math.random()`
draws both come out 0 (so the simulated fallback reports 10 MB used of
60 MB total). -/
def noHeapEnv : MemEnv :=
  { avail := false, usedJSHeapSize := 0, totalJSHeapSize := 0, jsHeapSizeLimit := 0,
    rand1 := 0, rand2 := 0 }

/-- A concrete monitoring session used to instantiate the theorems: monitoring
started at clock 0, one frame callback at clock 100 (so `frameCount = 1`,
`lastFrameTime = 100`, and the session is still running). -/
def sampledState : MonitorState := monitorFrame 100 (startMonitoring 0 initState)

end FlatListMonitor

namespace ScreenMonitor

/-- One entry of the `metrics` array of `PerformanceMonitor.ts` (interface
`PerformanceMetrics`, lines 6-11).  `memoryUsage` is `Option ℚ` because
`getMemoryUsage()` may return `undefined`. -/
structure ScreenMetric where
  screenName : String
  loadTime : ℚ
  timestamp : ℚ
  memoryUsage : Option ℚ
  deriving DecidableEq

/-- Private state of class `PerformanceMonitor` (`PerformanceMonitor.ts`,
lines 13-16): the recorded metrics array and the `loadStartTimes` map,
modelled as a function from screen names to an optional start timestamp. -/
structure MonitorState where
  metrics : List ScreenMetric
  loadStartTimes : String → Option ℚ

/-- Freshly constructed monitor: empty metrics array, empty start-time map. -/
def initState : MonitorState := { metrics := [], loadStartTimes := fun _ => none }

/-- `startScreenLoad(screenName)` (lines 28-31): stores `Date.now()` for the
screen, overwriting any pending start for the same name. -/
def startScreenLoad (screenName : String) (now : ℚ) (st : MonitorState) : MonitorState :=
  { st with loadStartTimes := fun n => if n = screenName then some now else st.loadStartTimes n }

/-- `endScreenLoad(screenName)` (lines 36-57): looks up the pending start; the
source guard `if (startTime)` is a JavaScript truthiness test, so both a
missing entry and a recorded start timestamp of `0` leave the state unchanged.
Otherwise it appends one metric with `loadTime = now - startTime` (and the
memory reading `memEnv` that `getMemoryUsage()` would return) and deletes the
pending start. -/
def endScreenLoad (screenName : String) (now : ℚ) (memEnv : Option ℚ)
    (st : MonitorState) : MonitorState :=
  match st.loadStartTimes screenName with
  | none => st
  | some startTime =>
    if startTime = 0 then st
    else
      { metrics := st.metrics ++
          [{ screenName := screenName
             loadTime := now - startTime
             timestamp := now
             memoryUsage := memEnv }]
        loadStartTimes := fun n => if n = screenName then none else st.loadStartTimes n }

/-- `getMetrics()` (lines 72-74): returns a copy of the metrics array. -/
def getMetrics (st : MonitorState) : List ScreenMetric := st.metrics

/-- `getAverageLoadTime(screenName)` (lines 79-85): `0` when no metric was
recorded for the screen, else the mean of the recorded load times (the
source's `reduce((sum, m) => sum + m.loadTime, 0)` divided by the length). -/
def getAverageLoadTime (screenName : String) (st : MonitorState) : ℚ :=
  let screenMetrics := st.metrics.filter (fun m => m.screenName == screenName)
  if screenMetrics.length = 0 then 0
  else (screenMetrics.foldl (fun sum m => sum + m.loadTime) 0) / (screenMetrics.length : ℚ)

/-- Per-screen statistics record built by `generateReport()`
(`PerformanceMonitor.ts`, line 98): `{count, totalTime, minTime, maxTime}`.
`minTime` starts at `Infinity`, modelled as `⊤` in `WithTop ℚ`. -/
structure ScreenStat where
  count : ℕ
  totalTime : ℚ
  minTime : WithTop ℚ
  maxTime : ℚ

/-- The initial statistics record of `generateReport()` (lines 101-106):
`count = 0`, `totalTime = 0`, `minTime = Infinity`, `maxTime = 0`. -/
def initStat : ScreenStat := { count := 0, totalTime := 0, minTime := ⊤, maxTime := 0 }

/-- Body of the `forEach` of `generateReport()` (lines 100-114), projected to
one screen name: a metric of another screen leaves the accumulator for this
screen untouched; a matching metric bumps `count`, adds its `loadTime`, and
folds it into `minTime`/`maxTime` with `Math.min`/`Math.max`. -/
def statStep (screenName : String) (acc : ScreenStat) (m : ScreenMetric) : ScreenStat :=
  if m.screenName == screenName then
    { count := acc.count + 1
      totalTime := acc.totalTime + m.loadTime
      minTime := min acc.minTime (m.loadTime : WithTop ℚ)
      maxTime := max acc.maxTime m.loadTime }
  else acc

/-- The statistics `generateReport()` accumulates for `screenName` after
processing the whole metrics array. -/
def screenStats (screenName : String) (ms : List ScreenMetric) : ScreenStat :=
  ms.foldl (statStep screenName) initStat

/-- A state of the screen monitor holding one completed load metric, used to
instantiate the universally quantified theorems at a concrete input. -/
def oneLoadState : MonitorState :=
  { metrics := [{ screenName := "Home", loadTime := 5, timestamp := 5, memoryUsage := none }]
    loadStartTimes := fun _ => none }

end ScreenMonitor

/-- Claim C4: `updateListMetrics` stores the triple and derives
`recycledItems = max(0, renderedItems - visibleItems)`; in particular
`updateListMetrics(100, 20, 35)` gives `recycledItems = 15`,
`updateListMetrics(100, 20, 10)` gives `recycledItems = 0`, and
`recycledItems` is never negative. -/
theorem updateListMetrics_stores_and_derives
    (st : FlatListMonitor.MonitorState) (totalItems visibleItems renderedItems : ℚ) :
    (FlatListMonitor.updateListMetrics totalItems visibleItems renderedItems st).metrics.listMetrics
        = { totalItems := totalItems, visibleItems := visibleItems,
            renderedItems := renderedItems,
            recycledItems := max 0 (renderedItems - visibleItems) } ∧
      0 ≤ (FlatListMonitor.updateListMetrics totalItems visibleItems renderedItems
            st).metrics.listMetrics.recycledItems ∧
      (FlatListMonitor.updateListMetrics 100 20 35 st).metrics.listMetrics.recycledItems = 15 ∧
      (FlatListMonitor.updateListMetrics 100 20 10 st).metrics.listMetrics.recycledItems = 0 := by
  refine ⟨rfl, le_max_left 0 _, ?_, ?_⟩ <;>
    simp [FlatListMonitor.updateListMetrics] <;> norm_num

/-- Claim C5: `startMonitoring()` while already monitoring is a no-op — the
state (all counters, `lastFrameTime`, and the scheduled-callback flag) is
left exactly as the first call set it. -/
theorem startMonitoring_double_start_noop
    (st : FlatListMonitor.MonitorState) (now : ℚ) (h : st.isMonitoring = true) :
    FlatListMonitor.startMonitoring now st = st := by
  simp [FlatListMonitor.startMonitoring, h]

/-- Witness for C5: starting at clock 0 leaves the monitor running, and a
second `startMonitoring` at clock 5 returns the state unchanged. -/
theorem startMonitoring_double_start_noop_witness :
    (FlatListMonitor.startMonitoring 0 FlatListMonitor.initState).isMonitoring = true ∧
      FlatListMonitor.startMonitoring 5 (FlatListMonitor.startMonitoring 0 FlatListMonitor.initState)
        = FlatListMonitor.startMonitoring 0 FlatListMonitor.initState :=
  ⟨rfl, startMonitoring_double_start_noop _ 5 rfl⟩

/-- Claim C3: ending a timing with no pending start is a no-op on both
monitors: `endScreenLoad` with an absent map entry returns the state
unchanged (no sample appended, so the sample count is untouched), and
`endRenderTiming` with the cleared/default `renderStartTime = 0` leaves the
recorded `renderTime` at its prior value. -/
theorem endTiming_without_start_noop
    (pm : ScreenMonitor.MonitorState) (fl : FlatListMonitor.MonitorState)
    (s : String) (now1 now2 : ℚ) (env : Option ℚ)
    (h1 : pm.loadStartTimes s = none) (h2 : fl.renderStartTime = 0) :
    ScreenMonitor.endScreenLoad s now1 env pm = pm ∧
      FlatListMonitor.endRenderTiming now2 fl = fl := by
  constructor
  · unfold ScreenMonitor.endScreenLoad
    rw [h1]
  · unfold FlatListMonitor.endRenderTiming
    rw [h2]
    norm_num

/-- Witness for C3: on freshly constructed monitors there is no pending start
for "Home", and both end calls leave the state unchanged. -/
theorem endTiming_without_start_noop_witness :
    (ScreenMonitor.initState.loadStartTimes "Home" = none ∧
        FlatListMonitor.initState.renderStartTime = 0) ∧
      (ScreenMonitor.endScreenLoad "Home" 7 none ScreenMonitor.initState
          = ScreenMonitor.initState ∧
        FlatListMonitor.endRenderTiming 7 FlatListMonitor.initState
          = FlatListMonitor.initState) :=
  ⟨⟨rfl, rfl⟩, endTiming_without_start_noop _ _ "Home" 7 7 none rfl rfl⟩

/-- Claim C10: `getAverageLoadTime(s)` returns 0 (it neither divides by zero
nor raises) whenever no completed load metric for screen `s` has been
recorded, in every state of the monitor. -/
theorem getAverageLoadTime_no_metric_zero
    (st : ScreenMonitor.MonitorState) (s : String)
    (h : ∀ m ∈ st.metrics, m.screenName ≠ s) :
    ScreenMonitor.getAverageLoadTime s st = 0 := by
  unfold ScreenMonitor.getAverageLoadTime
  have hnil : st.metrics.filter (fun m => m.screenName == s) = [] := by
    rw [List.filter_eq_nil_iff]
    intro m hm
    simpa using h m hm
  simp [hnil]

/-- Witness for C10: a state holding only a "Home" metric has no metric for
"Settings", and the average load time for "Settings" is 0. -/
theorem getAverageLoadTime_no_metric_zero_witness :
    (∀ m ∈ ScreenMonitor.oneLoadState.metrics, m.screenName ≠ "Settings") ∧
      ScreenMonitor.getAverageLoadTime "Settings" ScreenMonitor.oneLoadState = 0 :=
  ⟨by decide, getAverageLoadTime_no_metric_zero _ _ (by decide)⟩

/-- Counterexample to C2 as stated: with the simulated clock at 0, a
`startScreenLoad` followed by `endScreenLoad` 5 ms later produces no sample at
all — `endScreenLoad`'s JavaScript-truthiness guard `if (startTime)` treats
the recorded start timestamp `0` as absent, so the metrics array does not grow
by one. -/
theorem timing_zero_start_counterexample :
    (ScreenMonitor.endScreenLoad "Home" 5 none
        (ScreenMonitor.startScreenLoad "Home" 0 ScreenMonitor.initState)).metrics.length
      ≠ ScreenMonitor.initState.metrics.length + 1 := by
  decide

/-- Claim C2 (amended): provided the start timestamp is positive, a
`startTiming(s)` at clock `t` followed by `endTiming(s)` at clock `t + d`
records an elapsed duration of exactly `d`: `endScreenLoad` appends exactly
one metric with `loadTime = d`, and `endRenderTiming` sets `renderTime = d`. -/
theorem timing_records_elapsed
    (pm : ScreenMonitor.MonitorState) (fl : FlatListMonitor.MonitorState)
    (s : String) (t d : ℚ) (env : Option ℚ) (h : 0 < t) :
    (ScreenMonitor.endScreenLoad s (t + d) env
          (ScreenMonitor.startScreenLoad s t pm)).metrics
        = pm.metrics ++
            [{ screenName := s, loadTime := d, timestamp := t + d, memoryUsage := env }] ∧
      (FlatListMonitor.endRenderTiming (t + d)
          (FlatListMonitor.startRenderTiming t fl)).metrics.renderTime = d := by
  constructor
  · simp [ScreenMonitor.startScreenLoad, ScreenMonitor.endScreenLoad, h.ne',
      add_sub_cancel_left]
  · simp [FlatListMonitor.startRenderTiming, FlatListMonitor.endRenderTiming, h,
      add_sub_cancel_left]

/-- Witness for the amended C2: starting at clock 1 and ending at clock 6
records an elapsed duration of 5 on both monitors. -/
theorem timing_records_elapsed_witness :
    (0 : ℚ) < 1 ∧
      ((ScreenMonitor.endScreenLoad "Home" (1 + 5) none
            (ScreenMonitor.startScreenLoad "Home" 1 ScreenMonitor.initState)).metrics
          = ScreenMonitor.initState.metrics ++
              [{ screenName := "Home", loadTime := 5, timestamp := 1 + 5,
                 memoryUsage := none }] ∧
        (FlatListMonitor.endRenderTiming (1 + 5)
            (FlatListMonitor.startRenderTiming 1 FlatListMonitor.initState)).metrics.renderTime
          = 5) :=
  ⟨by norm_num,
    timing_records_elapsed ScreenMonitor.initState FlatListMonitor.initState "Home" 1 5 none
      (by norm_num)⟩

/-- The memory condition as written in the source
(`memoryUsagePercent = used / total * 100 > 80`) is equivalent to the spec's
ratio form `used / total > 0.80`. -/
theorem memoryPercent_iff (a b : ℚ) : a / b * 100 > 80 ↔ a / b > 80 / 100 := by
  constructor <;> intro h <;> linarith

/-- Claim C1: `getPerformanceRecommendations` returns exactly the advisory
messages of the threshold rows that hold on the (refreshed) metrics, in the
order of the spec's threshold table, and the single performing-well message
when no row fires (`recommendSpec` is the table transcribed from the spec). -/
theorem recommendations_match_threshold_table
    (st : FlatListMonitor.MonitorState) (env : FlatListMonitor.MemEnv) (now : ℚ)
    (m : FlatListMonitor.PerformanceMetrics) :
    (FlatListMonitor.getPerformanceRecommendations now env st).1
        = FlatListMonitor.recommendSpec ((FlatListMonitor.updateMetricsFn now env st).metrics) ∧
      FlatListMonitor.recommendationsOf m = FlatListMonitor.recommendSpec m := by
  have key : ∀ mm : FlatListMonitor.PerformanceMetrics,
      FlatListMonitor.recommendationsOf mm = FlatListMonitor.recommendSpec mm := by
    intro mm
    have h4iff : (mm.listMetrics.renderedItems > mm.listMetrics.visibleItems * 3)
        ↔ (mm.listMetrics.renderedItems > 3 * mm.listMetrics.visibleItems) := by
      rw [mul_comm]
    by_cases h1 : mm.scrollPerformance.averageFPS < 50 <;>
      by_cases h2 : mm.scrollPerformance.droppedFrames > 10 <;>
        by_cases h3 : mm.renderTime > 16 <;>
          by_cases h4 : mm.listMetrics.renderedItems > 3 * mm.listMetrics.visibleItems <;>
            by_cases h5 : mm.memoryUsage.jsHeapSizeUsed / mm.memoryUsage.jsHeapSizeTotal
                > 80 / 100 <;>
              simp [FlatListMonitor.recommendationsOf, FlatListMonitor.recommendSpec,
                FlatListMonitor.thresholdTable, memoryPercent_iff, h4iff,
                h1, h2, h3, h4, h5, FlatListMonitor.lowFPSMsg,
                FlatListMonitor.droppedFramesMsg, FlatListMonitor.renderTimeMsg,
                FlatListMonitor.overRenderMsg, FlatListMonitor.highMemoryMsg,
                FlatListMonitor.performingWellMsg]
  exact ⟨key _, key m⟩

/-- The concrete session `sampledState` spelled out: the frame at clock 100
counts as one (dropped) frame, `lastFrameTime` is 100, and monitoring is
still running. -/
theorem sampledState_eq :
    FlatListMonitor.sampledState
      = { metrics := FlatListMonitor.zeroMetrics, renderStartTime := 0, frameCount := 1,
          droppedFrames := 1, scrollEventCount := 0, lastFrameTime := 100,
          isMonitoring := true, rafId := true } := by
  norm_num [FlatListMonitor.sampledState, FlatListMonitor.monitorFrame,
    FlatListMonitor.startMonitoring, FlatListMonitor.initState]

/-- Counterexample to C6 as stated: in a session started at clock 0 with one
frame callback (at clock 100) and stopped at clock 1000, the wall-clock
session duration is 1 s and `sampleCount = 1`, so the claim demands
`averageFPS = 1`; the code instead divides by its estimate
`(now - (lastFrameTime - frameCount · 16.67)) / 1000 = 0.91667 s` and yields
`100000/91667 ≠ 1`. -/
theorem stopMonitoring_fps_not_wallclock_counterexample :
    (FlatListMonitor.stopMonitoring 1000 FlatListMonitor.noHeapEnv
        FlatListMonitor.sampledState).metrics.scrollPerformance.averageFPS ≠ 1 := by
  rw [sampledState_eq]
  norm_num [FlatListMonitor.stopMonitoring, FlatListMonitor.updateMetricsFn,
    FlatListMonitor.updateMemoryUsage, FlatListMonitor.noHeapEnv]

/-- Claim C6 (amended): `stopMonitoring()` finalizes
`averageFPS = frameCount / monitoringDuration` where `monitoringDuration` is
the source's estimate `(now - (lastFrameTime - frameCount × 16.67)) / 1000`
seconds (back-dating the last frame by `frameCount` ideal frame budgets), not
the elapsed wall-clock duration of the session. -/
theorem stopMonitoring_averageFPS_formula
    (st : FlatListMonitor.MonitorState) (now : ℚ) (env : FlatListMonitor.MemEnv)
    (h : st.isMonitoring = true) :
    (FlatListMonitor.stopMonitoring now env st).metrics.scrollPerformance.averageFPS
      = (st.frameCount : ℚ)
          / ((now - (st.lastFrameTime - (st.frameCount : ℚ) * (1667/100))) / 1000) := by
  by_cases ha : env.avail <;>
    simp [FlatListMonitor.stopMonitoring, FlatListMonitor.updateMetricsFn,
      FlatListMonitor.updateMemoryUsage, h, ha]

/-- Witness for the amended C6: the concrete session (start 0, frame at 100,
stop at 1000) is still running when stopped, and the finalized `averageFPS`
matches the source's estimate formula. -/
theorem stopMonitoring_averageFPS_formula_witness :
    FlatListMonitor.sampledState.isMonitoring = true ∧
      (FlatListMonitor.stopMonitoring 1000 FlatListMonitor.noHeapEnv
          FlatListMonitor.sampledState).metrics.scrollPerformance.averageFPS
        = (FlatListMonitor.sampledState.frameCount : ℚ)
            / ((1000 - (FlatListMonitor.sampledState.lastFrameTime
                - (FlatListMonitor.sampledState.frameCount : ℚ) * (1667/100))) / 1000) :=
  ⟨by rw [sampledState_eq],
    stopMonitoring_averageFPS_formula FlatListMonitor.sampledState 1000
      FlatListMonitor.noHeapEnv (by rw [sampledState_eq])⟩

/-- Counterexample to C7 as stated: after `reset()`, a `getMetrics()` call in
an environment without heap introspection (both `Math.random()` draws 0)
reports `jsHeapSizeUsed = 10000000`, not 0 — `getMetrics` refreshes the
memory fields through `updateMemoryUsage`, so the summary's memory-usage
fields are not all zero even though `sampleCount = 0`. -/
theorem reset_getMetrics_memory_nonzero_counterexample :
    (FlatListMonitor.getMetricsCall 7 FlatListMonitor.noHeapEnv
          (FlatListMonitor.reset 3 FlatListMonitor.noHeapEnv
            FlatListMonitor.sampledState)).1.memoryUsage.jsHeapSizeUsed = 10000000 ∧
      (10000000 : ℚ) ≠ 0 := by
  rw [sampledState_eq]
  norm_num [FlatListMonitor.reset, FlatListMonitor.stopMonitoring,
    FlatListMonitor.getMetricsCall, FlatListMonitor.updateMetricsFn,
    FlatListMonitor.updateMemoryUsage, FlatListMonitor.noHeapEnv,
    FlatListMonitor.zeroMetrics]

/-- Claim C7 (amended): in every state, after `reset()` a subsequent
`getMetrics()` (a total function — it cannot raise) returns a summary with
`renderTime = 0`, `averageFPS = 0`, `droppedFrames = 0`, `scrollEvents = 0`
and all list-metric fields 0, and the post-reset counters
(`frameCount`/`droppedFrames`/`scrollEventCount`/`renderStartTime`) are 0;
the memory-usage fields are refreshed best-effort from the host and need not
be zero. -/
theorem reset_getMetrics_zeroed
    (st : FlatListMonitor.MonitorState) (now1 now2 : ℚ)
    (env1 env2 : FlatListMonitor.MemEnv) :
    (FlatListMonitor.getMetricsCall now2 env2
          (FlatListMonitor.reset now1 env1 st)).1.renderTime = 0 ∧
      (FlatListMonitor.getMetricsCall now2 env2
          (FlatListMonitor.reset now1 env1 st)).1.scrollPerformance.averageFPS = 0 ∧
      (FlatListMonitor.getMetricsCall now2 env2
          (FlatListMonitor.reset now1 env1 st)).1.scrollPerformance.droppedFrames = 0 ∧
      (FlatListMonitor.getMetricsCall now2 env2
          (FlatListMonitor.reset now1 env1 st)).1.scrollPerformance.scrollEvents = 0 ∧
      (FlatListMonitor.getMetricsCall now2 env2
          (FlatListMonitor.reset now1 env1 st)).1.listMetrics
        = FlatListMonitor.zeroMetrics.listMetrics ∧
      (FlatListMonitor.reset now1 env1 st).frameCount = 0 ∧
      (FlatListMonitor.reset now1 env1 st).droppedFrames = 0 ∧
      (FlatListMonitor.reset now1 env1 st).scrollEventCount = 0 ∧
      (FlatListMonitor.reset now1 env1 st).renderStartTime = 0 := by
  by_cases ha : env2.avail <;>
    simp [FlatListMonitor.reset, FlatListMonitor.getMetricsCall,
      FlatListMonitor.updateMetricsFn, FlatListMonitor.updateMemoryUsage,
      FlatListMonitor.zeroMetrics, ha]

/-- Counterexample to C9 as stated: `getMetrics()` is not a pure read — on the
concrete running session it rewrites the stored `averageFPS` (and memory
fields) through `updateMetrics()`, so the monitor state after the call differs
from the state before it. -/
theorem getMetrics_not_pure_counterexample :
    (FlatListMonitor.getMetricsCall 1000 FlatListMonitor.noHeapEnv
        FlatListMonitor.sampledState).2 ≠ FlatListMonitor.sampledState := by
  intro h
  have h1 : (FlatListMonitor.getMetricsCall 1000 FlatListMonitor.noHeapEnv
        FlatListMonitor.sampledState).2.metrics.memoryUsage.jsHeapSizeUsed
      = FlatListMonitor.sampledState.metrics.memoryUsage.jsHeapSizeUsed :=
    congrArg (fun s => s.metrics.memoryUsage.jsHeapSizeUsed) h
  rw [sampledState_eq] at h1
  norm_num [FlatListMonitor.getMetricsCall, FlatListMonitor.updateMetricsFn,
    FlatListMonitor.updateMemoryUsage, FlatListMonitor.noHeapEnv,
    FlatListMonitor.zeroMetrics] at h1

/-- Claim C9 (amended): `getMetrics()` refreshes the derived fields
(`averageFPS`, `droppedFrames`, memory usage) in place before returning the
snapshot; it resets no counter (frame, dropped-frame and scroll-event
counters, the pending render timing, `lastFrameTime`, the monitoring flag,
`renderTime` and the list metrics are all preserved), and with the same clock
reading and host environment a second consecutive call returns the same
summary and leaves the state fixed. -/
theorem getMetrics_preserves_counters_and_idempotent
    (st : FlatListMonitor.MonitorState) (env : FlatListMonitor.MemEnv) (now : ℚ) :
    (FlatListMonitor.getMetricsCall now env
          ((FlatListMonitor.getMetricsCall now env st).2)).1
        = (FlatListMonitor.getMetricsCall now env st).1 ∧
      (FlatListMonitor.getMetricsCall now env
          ((FlatListMonitor.getMetricsCall now env st).2)).2
        = (FlatListMonitor.getMetricsCall now env st).2 ∧
      (FlatListMonitor.getMetricsCall now env st).2.frameCount = st.frameCount ∧
      (FlatListMonitor.getMetricsCall now env st).2.droppedFrames = st.droppedFrames ∧
      (FlatListMonitor.getMetricsCall now env st).2.scrollEventCount = st.scrollEventCount ∧
      (FlatListMonitor.getMetricsCall now env st).2.renderStartTime = st.renderStartTime ∧
      (FlatListMonitor.getMetricsCall now env st).2.lastFrameTime = st.lastFrameTime ∧
      (FlatListMonitor.getMetricsCall now env st).2.isMonitoring = st.isMonitoring ∧
      (FlatListMonitor.getMetricsCall now env st).2.metrics.renderTime
        = st.metrics.renderTime ∧
      (FlatListMonitor.getMetricsCall now env st).2.metrics.listMetrics
        = st.metrics.listMetrics ∧
      (FlatListMonitor.getMetricsCall now env st).2.metrics.scrollPerformance.scrollEvents
        = st.metrics.scrollPerformance.scrollEvents := by
  by_cases ha : env.avail <;>
    simp [FlatListMonitor.getMetricsCall, FlatListMonitor.updateMetricsFn,
      FlatListMonitor.updateMemoryUsage, ha]

/-- Folding `generateReport`'s per-screen accumulator over the whole metrics
array is the same as folding it over the metrics of that screen only: metrics
of other screens leave the accumulator untouched. -/
theorem statStep_foldl_filter (s : String) (ms : List ScreenMonitor.ScreenMetric)
    (acc : ScreenMonitor.ScreenStat) :
    ms.foldl (ScreenMonitor.statStep s) acc
      = (ms.filter (fun m => m.screenName == s)).foldl (ScreenMonitor.statStep s) acc := by
  induction ms generalizing acc with
  | nil => rfl
  | cons m t ih =>
    cases h : (m.screenName == s) with
    | true => simp [List.filter_cons, h, ih]
    | false =>
      have hstep : ScreenMonitor.statStep s acc m = acc := by
        simp [ScreenMonitor.statStep, h]
      simp [List.filter_cons, h, ih, hstep]

/-- Over a list of metrics that all belong to screen `s`, the accumulated
`count` grows by the length of the list. -/
theorem statStep_foldl_count (s : String) (l : List ScreenMonitor.ScreenMetric)
    (acc : ScreenMonitor.ScreenStat) (hall : ∀ m ∈ l, (m.screenName == s) = true) :
    (l.foldl (ScreenMonitor.statStep s) acc).count = acc.count + l.length := by
  induction l generalizing acc with
  | nil => simp
  | cons m t ih =>
    have hm := hall m (List.mem_cons_self m t)
    have htail : ∀ x ∈ t, (x.screenName == s) = true := fun x hx =>
      hall x (List.mem_cons_of_mem m hx)
    simp only [List.foldl_cons, ScreenMonitor.statStep, hm, if_true]
    rw [ih _ htail]
    simp
    omega

/-- Over a list of metrics that all belong to screen `s`, the accumulated
`totalTime` is the running sum of the load times. -/
theorem statStep_foldl_total (s : String) (l : List ScreenMonitor.ScreenMetric)
    (acc : ScreenMonitor.ScreenStat) (hall : ∀ m ∈ l, (m.screenName == s) = true) :
    (l.foldl (ScreenMonitor.statStep s) acc).totalTime
      = l.foldl (fun sum m => sum + m.loadTime) acc.totalTime := by
  induction l generalizing acc with
  | nil => rfl
  | cons m t ih =>
    have hm := hall m (List.mem_cons_self m t)
    have htail : ∀ x ∈ t, (x.screenName == s) = true := fun x hx =>
      hall x (List.mem_cons_of_mem m hx)
    simp only [List.foldl_cons, ScreenMonitor.statStep, hm, if_true]
    exact ih _ htail

/-- Invariant of `generateReport`'s per-screen fold: the accumulated total is
bounded above by `count × maxTime`; an `Infinity` minimum means nothing was
accumulated; and a finite minimum `q` bounds the total below by `count × q`. -/
theorem statStep_foldl_bounds (s : String) (l : List ScreenMonitor.ScreenMetric)
    (acc : ScreenMonitor.ScreenStat) (hall : ∀ m ∈ l, (m.screenName == s) = true)
    (h1 : acc.totalTime ≤ (acc.count : ℚ) * acc.maxTime)
    (h2 : acc.minTime = ⊤ → acc.count = 0 ∧ acc.totalTime = 0)
    (h3 : ∀ q : ℚ, acc.minTime = (q : WithTop ℚ) → (acc.count : ℚ) * q ≤ acc.totalTime) :
    (l.foldl (ScreenMonitor.statStep s) acc).totalTime
        ≤ ((l.foldl (ScreenMonitor.statStep s) acc).count : ℚ)
            * (l.foldl (ScreenMonitor.statStep s) acc).maxTime ∧
      ((l.foldl (ScreenMonitor.statStep s) acc).minTime = ⊤ →
        (l.foldl (ScreenMonitor.statStep s) acc).count = 0 ∧
          (l.foldl (ScreenMonitor.statStep s) acc).totalTime = 0) ∧
      (∀ q : ℚ, (l.foldl (ScreenMonitor.statStep s) acc).minTime = (q : WithTop ℚ) →
        ((l.foldl (ScreenMonitor.statStep s) acc).count : ℚ) * q
          ≤ (l.foldl (ScreenMonitor.statStep s) acc).totalTime) := by
  induction l generalizing acc with
  | nil => exact ⟨h1, h2, h3⟩
  | cons m t ih =>
    have hm := hall m (List.mem_cons_self m t)
    have htail : ∀ x ∈ t, (x.screenName == s) = true := fun x hx =>
      hall x (List.mem_cons_of_mem m hx)
    simp only [List.foldl_cons, ScreenMonitor.statStep, hm, if_true]
    apply ih _ htail
    · -- total + load ≤ (count + 1) * max(maxTime, load)
      have a1 : (acc.count : ℚ) * acc.maxTime ≤ (acc.count : ℚ) * max acc.maxTime m.loadTime :=
        mul_le_mul_of_nonneg_left (le_max_left _ _) (by positivity)
      have a2 : m.loadTime ≤ max acc.maxTime m.loadTime := le_max_right _ _
      push_cast
      nlinarith [h1]
    · -- min(minTime, load) cannot be Infinity
      intro hmin
      exfalso
      have hb : (⊤ : WithTop ℚ) ≤ ((m.loadTime : ℚ) : WithTop ℚ) := hmin ▸ min_le_right _ _
      exact WithTop.coe_ne_top (top_le_iff.mp hb)
    · -- finite minimum bounds the new total below
      intro q hq
      cases hmt : acc.minTime with
      | top =>
        rw [hmt] at hq
        have hq2 : ((m.loadTime : ℚ) : WithTop ℚ) = (q : WithTop ℚ) := by
          rw [min_eq_right (le_top : ((m.loadTime : ℚ) : WithTop ℚ) ≤ ⊤)] at hq
          exact hq
        have hq3 : m.loadTime = q := WithTop.coe_injective hq2
        obtain ⟨hc0, ht0⟩ := h2 hmt
        rw [hc0, ht0, hq3]
        push_cast
        linarith
      | coe mn =>
        rw [hmt, ← WithTop.coe_min] at hq
        have hq3 : min mn m.loadTime = q := WithTop.coe_injective hq
        have b1 : (acc.count : ℚ) * mn ≤ acc.totalTime := h3 mn hmt
        have b2 : min mn m.loadTime ≤ mn := min_le_left _ _
        have b3 : min mn m.loadTime ≤ m.loadTime := min_le_right _ _
        have b4 : (acc.count : ℚ) * min mn m.loadTime ≤ (acc.count : ℚ) * mn :=
          mul_le_mul_of_nonneg_left b2 (by positivity)
        rw [← hq3]
        push_cast
        nlinarith

/-- Claim C8: for every screen `s` with at least one recorded load metric, the
per-screen statistics accumulated by `generateReport` and the average of
`getAverageLoadTime` satisfy `minTime ≤ average load time ≤ maxTime`. -/
theorem screen_min_le_average_le_max
    (st : ScreenMonitor.MonitorState) (s : String)
    (h : st.metrics.filter (fun m => m.screenName == s) ≠ []) :
    (ScreenMonitor.screenStats s st.metrics).minTime
        ≤ ((ScreenMonitor.getAverageLoadTime s st : ℚ) : WithTop ℚ) ∧
      ScreenMonitor.getAverageLoadTime s st
        ≤ (ScreenMonitor.screenStats s st.metrics).maxTime := by
  have hall : ∀ m ∈ st.metrics.filter (fun m => m.screenName == s),
      (m.screenName == s) = true := by
    intro m hm
    exact (List.mem_filter.mp hm).2
  have hres : ScreenMonitor.screenStats s st.metrics
      = (st.metrics.filter (fun m => m.screenName == s)).foldl
          (ScreenMonitor.statStep s) ScreenMonitor.initStat :=
    statStep_foldl_filter s st.metrics ScreenMonitor.initStat
  have hcount : ((st.metrics.filter (fun m => m.screenName == s)).foldl
        (ScreenMonitor.statStep s) ScreenMonitor.initStat).count
      = (st.metrics.filter (fun m => m.screenName == s)).length := by
    rw [statStep_foldl_count s (st.metrics.filter (fun m => m.screenName == s))
      ScreenMonitor.initStat hall]
    norm_num [ScreenMonitor.initStat]
  have htotal : ((st.metrics.filter (fun m => m.screenName == s)).foldl
        (ScreenMonitor.statStep s) ScreenMonitor.initStat).totalTime
      = (st.metrics.filter (fun m => m.screenName == s)).foldl
          (fun sum m => sum + m.loadTime) 0 := by
    rw [statStep_foldl_total s (st.metrics.filter (fun m => m.screenName == s))
      ScreenMonitor.initStat hall]
    norm_num [ScreenMonitor.initStat]
  have hinv := statStep_foldl_bounds s (st.metrics.filter (fun m => m.screenName == s))
    ScreenMonitor.initStat hall
    (by simp [ScreenMonitor.initStat])
    (by intro _; simp [ScreenMonitor.initStat])
    (by
      intro q hq
      simp [ScreenMonitor.initStat] at hq)
  have hlen : 0 < (st.metrics.filter (fun m => m.screenName == s)).length :=
    List.length_pos.mpr h
  have hlenq : (0 : ℚ) < ((st.metrics.filter (fun m => m.screenName == s)).length : ℚ) := by
    exact_mod_cast hlen
  have havg : ScreenMonitor.getAverageLoadTime s st
      = ((st.metrics.filter (fun m => m.screenName == s)).foldl
            (fun sum m => sum + m.loadTime) 0)
          / ((st.metrics.filter (fun m => m.screenName == s)).length : ℚ) := by
    unfold ScreenMonitor.getAverageLoadTime
    simp [Nat.pos_iff_ne_zero.mp hlen]
  rw [hres]
  constructor
  · -- lower bound through the accumulated minimum
    cases hmt : ((st.metrics.filter (fun m => m.screenName == s)).foldl
        (ScreenMonitor.statStep s) ScreenMonitor.initStat).minTime with
    | top =>
      exfalso
      have hc0 := (hinv.2.1 hmt).1
      rw [hcount] at hc0
      omega
    | coe q =>
      have hb := hinv.2.2 q hmt
      rw [hcount, htotal] at hb
      rw [havg]
      apply WithTop.coe_le_coe.mpr
      rw [le_div_iff₀ hlenq]
      simpa [mul_comm] using hb
  · -- upper bound through the accumulated maximum
    have hb := hinv.1
    rw [hcount, htotal] at hb
    rw [havg]
    rw [div_le_iff₀ hlenq]
    simpa [mul_comm] using hb

/-- Witness for C8: a state with one 5 ms "Home" load has a nonempty metric
list for "Home", and the accumulated minimum and maximum bracket the average. -/
theorem screen_min_le_average_le_max_witness :
    ScreenMonitor.oneLoadState.metrics.filter (fun m => m.screenName == "Home") ≠ [] ∧
      ((ScreenMonitor.screenStats "Home" ScreenMonitor.oneLoadState.metrics).minTime
          ≤ ((ScreenMonitor.getAverageLoadTime "Home" ScreenMonitor.oneLoadState : ℚ) :
              WithTop ℚ) ∧
        ScreenMonitor.getAverageLoadTime "Home" ScreenMonitor.oneLoadState
          ≤ (ScreenMonitor.screenStats "Home" ScreenMonitor.oneLoadState.metrics).maxTime) :=
  ⟨by decide, screen_min_le_average_le_max ScreenMonitor.oneLoadState "Home" (by decide)⟩
